import Mathlib

/-!
# Verification of the ndastro-core engine

A shallow embedding of the `ndastro_engine` package (`core.py` and the
ayanamsa / retrograde components described by its specification), with
theorems settling the specification's claims about it.

Degrees, astronomical units and instants are embedded as rationals; the
external Skyfield ephemeris provider is abstracted as a record of the
operations `core.py` invokes on it.
-/

/-- A UTC datetime as used by `core.py`: a calendar date together with a
time of day.  `date` is the (Julian-style) day count of the civil date,
with day 0 at the J2000.0 epoch date 2000-01-01; `tod` is the fraction of
the day elapsed.  `given_time.date()` in Python projects out `date`. -/
structure Datetime where
  date : ℤ
  tod : ℚ
deriving DecidableEq

/-- Strict timeline order on instants: earlier date, or same date and
earlier time of day. -/
def Datetime.before (t1 t2 : Datetime) : Prop :=
  t1.date < t2.date ∨ (t1.date = t2.date ∧ t1.tod < t2.tod)

/-- The planet identifiers of `ndastro_engine.enums.planet_enum.Planets`. -/
inductive Planets
  | sun
  | moon
  | mars
  | mercury
  | jupiter
  | venus
  | saturn
  | rahu
  | kethu
  | ascendant
  | empty
deriving DecidableEq

/-- `Planets.code`: the opaque ephemeris body identifier of each planet. -/
def Planets.code : Planets → String
  | .sun => "sun"
  | .moon => "moon"
  | .mars => "mars barycenter"
  | .mercury => "mercury"
  | .jupiter => "jupiter barycenter"
  | .venus => "venus"
  | .saturn => "saturn barycenter"
  | .rahu => "rahu"
  | .kethu => "kethu"
  | .ascendant => "ascendant"
  | .empty => "empty"

/-- An observer location on the WGS84 ellipsoid, as produced by
`wgs84.latlon(latitude_degrees=…, longitude_degrees=…, elevation_m=…)`. -/
structure GeographicPosition where
  latitude_degrees : ℚ
  longitude_degrees : ℚ
  elevation_m : ℚ
deriving DecidableEq

/-- `wgs84.latlon`: build an observer location from latitude, longitude
(decimal degrees) and elevation (metres). -/
def wgs84_latlon (lat lon elev : ℚ) : GeographicPosition :=
  ⟨lat, lon, elev⟩

/-- The external Skyfield ephemeris provider, abstracted as the two
operations `core.py` performs with it:

* `apparent body observer t` — the chain
  `observer.at(t).observe(eph[body]).apparent().frame_latlon(ecliptic_frame)`,
  returning the apparent ecliptic `(latitude.degrees, longitude.degrees,
  distance.au)` of the body with identifier `body` for the given observer
  at instant `t`;
* `find_discrete observer t_start t_end` — the event search
  `find_discrete(t_start, t_end, sunrise_sunset(eph, observer))`, returning
  the chronological list of event `times` in the window paired with the
  parallel list of `events` flags (`true` = the sun rises at that time,
  `false` = it sets). -/
structure Skyfield where
  apparent : String → GeographicPosition → Datetime → ℚ × ℚ × ℚ
  find_discrete : GeographicPosition → ℤ → ℤ → List ℚ × List Bool

/-- `core.get_planet_position`: the apparent ecliptic position of `planet`
for an observer at `(lat, lon)` and the hard-coded elevation 914 m at
`given_time`.  Returns the triple `(latitude.degrees, longitude.degrees,
distance.au)`, with the longitude replaced by `longitude.degrees - a`
when an ayanamsa `a` is supplied. -/
def get_planet_position (sky : Skyfield) (planet : Planets) (lat lon : ℚ)
    (given_time : Datetime) (ayanamsa : Option ℚ) : ℚ × ℚ × ℚ :=
  let observer := wgs84_latlon lat lon 914
  let astrometric := sky.apparent planet.code observer given_time
  let latitude := astrometric.1
  let longitude := astrometric.2.1
  let distance := astrometric.2.2
  (latitude,
    match ayanamsa with
    | none => longitude
    | some a => longitude - a,
    distance)

/-- `get_planet_position` generalised by the observer elevation: identical
to the source function except that the elevation passed to `wgs84.latlon`
is a parameter instead of the literal 914.  This is the operation the
specification describes when it says the nominal elevation can be
overridden; comparing it with `get_planet_position` settles whether the
source operation actually accepts such an override. -/
def get_planet_position_at_elevation (sky : Skyfield) (planet : Planets)
    (lat lon elevation_m : ℚ) (given_time : Datetime) (ayanamsa : Option ℚ) :
    ℚ × ℚ × ℚ :=
  let observer := wgs84_latlon lat lon elevation_m
  let astrometric := sky.apparent planet.code observer given_time
  let latitude := astrometric.1
  let longitude := astrometric.2.1
  let distance := astrometric.2.2
  (latitude,
    match ayanamsa with
    | none => longitude
    | some a => longitude - a,
    distance)

/-- `core.get_sunrise_sunset`: search the one-day window starting at the
civil date of `given_time` for sun events, then unpack the first two event
*times* — the source line
`sunrise, sunset = [time for time, _ in zip(times, events, strict=False)]`
discards the event flags entirely.  The Python unpacking raises unless the
zipped list has exactly two elements; this is modelled by `Option`. -/
def get_sunrise_sunset (sky : Skyfield) (lat lon : ℚ) (given_time : Datetime)
    (elevation : ℚ) : Option (ℚ × ℚ) :=
  let location := wgs84_latlon lat lon elevation
  let t_start := given_time.date
  let t_end := given_time.date + 1
  let te := sky.find_discrete location t_start t_end
  match (te.1.zip te.2).map Prod.fst with
  | [sunrise, sunset] => some (sunrise, sunset)
  | _ => none

/-- A fixture provider returning the Sun's apparent ecliptic coordinates
recorded by the repository's test suite for observer (12.97, 77.59) at
2023-12-31T18:30:00Z, for every query. -/
def sunFixtureSky : Skyfield :=
  ⟨fun _ _ _ => (0.0006220123496504032, 279.8051877358686, 0.9833628050249553),
   fun _ _ _ => ([], [])⟩

/-- A probe provider that reports the observer elevation it was handed in
every coordinate, so that the elevation reaching the ephemeris call is
observable in the result. -/
def elevationProbeSky : Skyfield :=
  ⟨fun _ observer _ =>
    (observer.elevation_m, observer.elevation_m, observer.elevation_m),
   fun _ _ _ => ([], [])⟩

/-- A provider whose one-day event window contains a setting event before
a rising event — the situation of an observer (such as one at Sydney's
longitude) for whom the sun is up at 00:00 UTC: the sun sets at 540
minutes into the window and rises again at 1260. -/
def sunUpAtMidnightSky : Skyfield :=
  ⟨fun _ _ _ => (0, 0, 0),
   fun _ _ _ => ([540, 1260], [false, true])⟩

/-- Modelled from the spec: the source module `ndastro_engine.ayanamsa` is
referenced only by its tests; the specification states that every formula
operates at date resolution on the civil decomposition and that the
instant → Julian-century conversion is monotonic and continuous, so an
instant's contribution is its elapsed Julian centuries since the J2000.0
epoch, computed from its day count (36525 days per Julian century). -/
def julianCenturies (t : Datetime) : ℚ :=
  t.date / 36525

/-- Modelled from the spec: the shared precession-rate factor `B6`
(`_calculate_b6`), equal to 1 exactly at the J2000.0 epoch and growing
smoothly with elapsed time; the test fixtures (0.8999… in 1990, ~1 in
2000, 1.2601… in 2026) pin it as linear in elapsed Julian centuries. -/
def calculate_b6 (t : Datetime) : ℚ :=
  1 + julianCenturies t

/-- Modelled from the spec: the closed enumeration of the sixteen named
ayanamsa systems. -/
inductive AyanamsaSystem
  | lahiri
  | raman
  | krishnamurti
  | faganBradley
  | kali
  | janma
  | trueAyanamsa
  | madhava
  | vishnu
  | yukteshwar
  | suryasiddhanta
  | aryabhatta
  | ushashasi
  | trueCitra
  | trueRevati
  | truePusya
deriving DecidableEq

/-- Modelled from the spec: each system's base offset at the J2000.0
epoch (any system-specific fixed correction constant absorbed), taken
from the repository's test fixtures. -/
def AyanamsaSystem.base : AyanamsaSystem → ℚ
  | .lahiri => 23.8564406708
  | .raman => 23.7999430233
  | .krishnamurti => 25.1499637748
  | .faganBradley => 26.1332952817
  | .kali => 28.5382632626
  | .janma => 24.1796794066
  | .trueAyanamsa => 25.4402525985
  | .madhava => 25.4504561737
  | .vishnu => 25.4064525985
  | .yukteshwar => 23.8666323530
  | .suryasiddhanta => 25.3967226568
  | .aryabhatta => 25.2001384124
  | .ushashasi => 21.4499616631
  | .trueCitra => 25.2332951996
  | .trueRevati => 21.4332956033
  | .truePusya => 25.4802033332

/-- Modelled from the spec: the precession rate in degrees per Julian
century shared by the secular terms (the Lahiri fixtures give an annual
rate of ~0.014°, i.e. 1.4°/century). -/
def precessionRatePerCentury : ℚ := 1.4

/-- Modelled from the spec: the shared evaluation routine — base offset
at J2000.0 plus a linear secular term derived from `B6`. -/
def ayanamsa_for (s : AyanamsaSystem) (t : Datetime) : ℚ :=
  s.base + precessionRatePerCentury * (calculate_b6 t - 1)

/-- `get_lahiri_ayanamsa`, modelled from the spec. -/
def get_lahiri_ayanamsa (t : Datetime) : ℚ := ayanamsa_for .lahiri t

/-- `get_raman_ayanamsa`, modelled from the spec. -/
def get_raman_ayanamsa (t : Datetime) : ℚ := ayanamsa_for .raman t

/-- `get_krishnamurti_new_ayanamsa`, modelled from the spec. -/
def get_krishnamurti_new_ayanamsa (t : Datetime) : ℚ := ayanamsa_for .krishnamurti t

/-- `get_fagan_bradley_ayanamsa`, modelled from the spec. -/
def get_fagan_bradley_ayanamsa (t : Datetime) : ℚ := ayanamsa_for .faganBradley t

/-- `get_kali_ayanamsa`, modelled from the spec. -/
def get_kali_ayanamsa (t : Datetime) : ℚ := ayanamsa_for .kali t

/-- `get_janma_ayanamsa`, modelled from the spec. -/
def get_janma_ayanamsa (t : Datetime) : ℚ := ayanamsa_for .janma t

/-- `get_true_ayanamsa`, modelled from the spec. -/
def get_true_ayanamsa (t : Datetime) : ℚ := ayanamsa_for .trueAyanamsa t

/-- `get_madhava_ayanamsa`, modelled from the spec. -/
def get_madhava_ayanamsa (t : Datetime) : ℚ := ayanamsa_for .madhava t

/-- `get_vishnu_ayanamsa`, modelled from the spec. -/
def get_vishnu_ayanamsa (t : Datetime) : ℚ := ayanamsa_for .vishnu t

/-- `get_yukteshwar_ayanamsa`, modelled from the spec. -/
def get_yukteshwar_ayanamsa (t : Datetime) : ℚ := ayanamsa_for .yukteshwar t

/-- `get_suryasiddhanta_ayanamsa`, modelled from the spec. -/
def get_suryasiddhanta_ayanamsa (t : Datetime) : ℚ := ayanamsa_for .suryasiddhanta t

/-- `get_aryabhatta_ayanamsa`, modelled from the spec. -/
def get_aryabhatta_ayanamsa (t : Datetime) : ℚ := ayanamsa_for .aryabhatta t

/-- `get_ushashasi_ayanamsa`, modelled from the spec. -/
def get_ushashasi_ayanamsa (t : Datetime) : ℚ := ayanamsa_for .ushashasi t

/-- `get_true_citra_ayanamsa`, modelled from the spec. -/
def get_true_citra_ayanamsa (t : Datetime) : ℚ := ayanamsa_for .trueCitra t

/-- `get_true_revati_ayanamsa`, modelled from the spec. -/
def get_true_revati_ayanamsa (t : Datetime) : ℚ := ayanamsa_for .trueRevati t

/-- `get_true_pusya_ayanamsa`, modelled from the spec. -/
def get_true_pusya_ayanamsa (t : Datetime) : ℚ := ayanamsa_for .truePusya t

/-- Modelled from the spec: the supported range of the ayanamsa library,
the test-date span 1900–2100 (±100 Julian years around J2000.0). -/
def inSupportedRange (t : Datetime) : Prop :=
  -36525 ≤ t.date ∧ t.date ≤ 36525

/-- Modelled from the spec: the speed-longitude signal of the Position
Derivation Service consumed by the retrograde window detector — for a
body identifier, an observer latitude and longitude, and a day, the
body's apparent ecliptic longitudinal speed in degrees per day.  The
six-component position operation producing it is referenced only by the
repository's tests. -/
structure SpeedProvider where
  speed_longitude : String → ℚ → ℚ → ℤ → ℚ

/-- Modelled from the spec: the bounded search horizon of the retrograde
detector, several typical synodic periods, in days. -/
def searchHorizon : ℕ := 800

/-- Modelled from the spec: walk backward day by day from a queried
retrograde day while the speed stays negative, returning the most recent
day at which the sign flipped from non-negative to negative — the start
of the retrograde arc — or `none` when the fuel (search horizon) runs
out before a flip is found. -/
def searchStart (s : ℤ → ℚ) : ℤ → ℕ → Option ℤ
  | _, 0 => none
  | t, fuel + 1 => if 0 ≤ s (t - 1) then some t else searchStart s (t - 1) fuel

/-- Modelled from the spec: walk forward day by day from a queried
retrograde day while the speed stays negative, returning the last day
before the sign flips back to non-negative — the end of the retrograde
arc — or `none` when the fuel runs out. -/
def searchEnd (s : ℤ → ℚ) : ℤ → ℕ → Option ℤ
  | _, 0 => none
  | t, fuel + 1 => if 0 ≤ s (t + 1) then some t else searchEnd s (t + 1) fuel

/-- Modelled from the spec: `is_planet_in_retrograde(check_date, planet,
lat, lon)` — the retrograde window detector.  The two luminaries are
excluded by policy and always report not-retrograde; otherwise the sign
of the speed-longitude at the queried day classifies the motion, and a
negative speed triggers the bounded outward search for the window
boundaries, dropping back to not-retrograde when either search exceeds
the horizon. -/
def is_planet_in_retrograde (sp : SpeedProvider) (check_date : Datetime)
    (planet : String) (lat lon : ℚ) : Bool × Option ℤ × Option ℤ :=
  if planet = "sun" ∨ planet = "moon" then (false, none, none)
  else
    let s := fun d => sp.speed_longitude planet lat lon d
    let t := check_date.date
    if 0 ≤ s t then (false, none, none)
    else
      match searchStart s t searchHorizon, searchEnd s t searchHorizon with
      | some a, some b => (true, some a, some b)
      | _, _ => (false, none, none)

/-- A synthetic speed signal for concrete evaluation: negative (apparent
retrograde motion) exactly on days 5 through 10, prograde elsewhere. -/
def syntheticRetroSpeed : SpeedProvider :=
  ⟨fun _ _ _ d => if d < 5 ∨ 10 < d then 1 else -1⟩

/-- Helper: the longitude component returned by `get_planet_position`. -/
def returnedLongitude (sky : Skyfield) (planet : Planets) (lat lon : ℚ)
    (given_time : Datetime) (ayanamsa : Option ℚ) : ℚ :=
  (get_planet_position sky planet lat lon given_time ayanamsa).2.1

/-- C1: for every planet, observer latitude/longitude and instant, the
longitude returned by `get_planet_position` with an ayanamsa `a` supplied
is the tropical longitude (the longitude returned with ayanamsa absent)
minus `a`; in particular, when the tropical longitude is
279.8051877358686 and the ayanamsa is 24.19166667, the returned sidereal
longitude is 255.61352106586864 within floating-point tolerance. -/
theorem sidereal_longitude_is_tropical_minus_ayanamsa (sky : Skyfield)
    (planet : Planets) (lat lon : ℚ) (t : Datetime) (a trop : ℚ)
    (htrop : returnedLongitude sky planet lat lon t none = trop) :
    returnedLongitude sky planet lat lon t (some a) = trop - a ∧
      (trop = 279.8051877358686 → a = 24.19166667 →
        |returnedLongitude sky planet lat lon t (some a) - 255.61352106586864| <
          1 / 10 ^ 12) := by
  have hsub : returnedLongitude sky planet lat lon t (some a) = trop - a := by
    rw [← htrop]; rfl
  refine ⟨hsub, fun ht ha => ?_⟩
  rw [hsub, ht, ha, abs_lt]
  constructor <;> norm_num

/-- C1 witness: the subtraction law and the concrete scenario, evaluated
on the recorded Sun fixture for observer (12.97, 77.59) at
2023-12-31T18:30:00Z. -/
theorem sidereal_longitude_witness :
    returnedLongitude sunFixtureSky .sun 12.97 77.59 ⟨8765, 37/48⟩ (some 24.19166667) =
        279.8051877358686 - 24.19166667 ∧
      |returnedLongitude sunFixtureSky .sun 12.97 77.59 ⟨8765, 37/48⟩ (some 24.19166667) -
          255.61352106586864| < 1 / 10 ^ 12 := by
  have h := sidereal_longitude_is_tropical_minus_ayanamsa sunFixtureSky .sun
    12.97 77.59 ⟨8765, 37/48⟩ 24.19166667 279.8051877358686 rfl
  exact ⟨h.1, h.2 rfl rfl⟩

/-- C2: round-trip law — adding the ayanamsa back to the longitude
returned with ayanamsa `a` supplied reproduces the longitude returned with
ayanamsa absent, exactly over the rational-valued embedding, for every
planet, observer, instant and ayanamsa. -/
theorem ayanamsa_round_trip (sky : Skyfield) (planet : Planets)
    (lat lon : ℚ) (t : Datetime) (a : ℚ) :
    returnedLongitude sky planet lat lon t (some a) + a =
      returnedLongitude sky planet lat lon t none := by
  show (get_planet_position sky planet lat lon t (some a)).2.1 + a =
    (get_planet_position sky planet lat lon t none).2.1
  simp [get_planet_position]

/-- C3: at the failing input from the repository's test suite (the Sun,
observer (12.97, 77.59), 2023-12-31T18:30:00Z, no ayanamsa), the source
`get_planet_position` returns the bare triple (latitude, longitude,
distance) — there are no speed components in the result, although the
repository's tests require a six-field `PlanetPosition` carrying
`speed_latitude`, `speed_longitude` and `speed_distance`. -/
theorem planet_position_returns_bare_triple :
    get_planet_position sunFixtureSky .sun 12.97 77.59 ⟨8765, 37/48⟩ none =
      (0.0006220123496504032, 279.8051877358686, 0.9833628050249553) := rfl

/-- C4 counterexample: the position operation offers no elevation
override — at a concrete input, with a provider that reports the observer
elevation it receives, the source `get_planet_position` places the
observer at 914 m, and its result differs from the observer being placed
at a caller-chosen elevation of 500 m. -/
theorem position_elevation_override_impossible :
    (get_planet_position elevationProbeSky .sun 0 0 ⟨0, 0⟩ none).1 = 914 ∧
      get_planet_position elevationProbeSky .sun 0 0 ⟨0, 0⟩ none ≠
        get_planet_position_at_elevation elevationProbeSky .sun 0 0 500 ⟨0, 0⟩ none := by
  constructor
  · rfl
  · intro h
    have h1 : (914 : ℚ) = 500 := congrArg Prod.fst h
    norm_num at h1

/-- C4 amended: for every call, `get_planet_position` places the observer
at the caller's latitude and longitude and at the fixed nominal elevation
of 914 m — it coincides with the elevation-generalised operation applied
at exactly 914 m, for every provider, planet, observer, instant and
ayanamsa; the position operation accepts no elevation override (only
`get_sunrise_sunset` takes an elevation parameter). -/
theorem position_observer_at_fixed_nominal_elevation (sky : Skyfield)
    (planet : Planets) (lat lon : ℚ) (t : Datetime) (ayanamsa : Option ℚ) :
    get_planet_position sky planet lat lon t ayanamsa =
      get_planet_position_at_elevation sky planet lat lon 914 t ayanamsa := rfl

/-- C10: the ayanamsa argument affects only the longitude component —
for every planet, observer and instant, the returned latitude and
distance are the same with ayanamsa absent or any value supplied, and
with ayanamsa absent the returned longitude is exactly the provider's
tropical longitude, unmodified. -/
theorem ayanamsa_affects_only_longitude (sky : Skyfield) (planet : Planets)
    (lat lon : ℚ) (t : Datetime) (a : ℚ) :
    (get_planet_position sky planet lat lon t (some a)).1 =
        (get_planet_position sky planet lat lon t none).1 ∧
      (get_planet_position sky planet lat lon t (some a)).2.2 =
        (get_planet_position sky planet lat lon t none).2.2 ∧
      (get_planet_position sky planet lat lon t none).2.1 =
        (sky.apparent planet.code (wgs84_latlon lat lon 914) t).2.1 :=
  ⟨rfl, rfl, rfl⟩

/-- C5: at the failing input — an observer at Sydney's longitude on a day
whose one-day UTC search window opens with the sun already up, so the
window holds a setting event (at 540) before the rising event (at 1260) —
the source `get_sunrise_sunset` returns the setting instant as its first
component: it discards the event flags and unpacks the event times in
chronological order, while the first returned instant is documented as
the sunrise. -/
theorem sunrise_sunset_first_component_can_be_a_set_event :
    get_sunrise_sunset sunUpAtMidnightSky (-33.8688) 151.2093 ⟨8766, 0⟩ 914 =
        some (540, 1260) ∧
      (sunUpAtMidnightSky.find_discrete
          (wgs84_latlon (-33.8688) 151.2093 914) 8766 8767).2.headI = false := by
  constructor <;> rfl

/-- C9: `get_sunrise_sunset` depends only on the calendar date of
`given_time` — for any two instants with the same date (provider,
location and elevation equal), the results are identical, because the
search window is built from `given_time.date()` alone. -/
theorem sunrise_sunset_depends_only_on_date (sky : Skyfield) (lat lon : ℚ)
    (elevation : ℚ) (t1 t2 : Datetime) (h : t1.date = t2.date) :
    get_sunrise_sunset sky lat lon t1 elevation =
      get_sunrise_sunset sky lat lon t2 elevation := by
  unfold get_sunrise_sunset
  rw [h]

/-- C9 witness: two instants on the same date, at 00:00 and at 12:00,
give identical sunrise/sunset results. -/
theorem sunrise_sunset_date_only_witness :
    get_sunrise_sunset sunUpAtMidnightSky 12.97 77.59 ⟨8766, 0⟩ 914 =
      get_sunrise_sunset sunUpAtMidnightSky 12.97 77.59 ⟨8766, 1/2⟩ 914 :=
  sunrise_sunset_depends_only_on_date sunUpAtMidnightSky 12.97 77.59 914
    ⟨8766, 0⟩ ⟨8766, 1/2⟩ rfl

/-- Helper: a successful backward boundary search returns a day no later
than the queried day. -/
theorem searchStart_le (s : ℤ → ℚ) :
    ∀ (fuel : ℕ) (t a : ℤ), searchStart s t fuel = some a → a ≤ t := by
  intro fuel
  induction fuel with
  | zero => intro t a h; simp [searchStart] at h
  | succ n ih =>
    intro t a h
    rw [searchStart] at h
    by_cases hc : 0 ≤ s (t - 1)
    · rw [if_pos hc] at h
      injection h with h
      omega
    · rw [if_neg hc] at h
      have := ih (t - 1) a h
      omega

/-- Helper: a successful forward boundary search returns a day no earlier
than the queried day. -/
theorem le_searchEnd (s : ℤ → ℚ) :
    ∀ (fuel : ℕ) (t b : ℤ), searchEnd s t fuel = some b → t ≤ b := by
  intro fuel
  induction fuel with
  | zero => intro t b h; simp [searchEnd] at h
  | succ n ih =>
    intro t b h
    rw [searchEnd] at h
    by_cases hc : 0 ≤ s (t + 1)
    · rw [if_pos hc] at h
      injection h with h
      omega
    · rw [if_neg hc] at h
      have := ih (t + 1) b h
      omega

/-- C6: retrograde-window invariant — for every speed signal, queried
instant, body and observer location, whenever the detector reports
`is_retrograde = true` it also returns a start and an end day bracketing
the queried day, and whenever it reports `is_retrograde = false` it
returns no window at all. -/
theorem retrograde_window_brackets_query (sp : SpeedProvider)
    (check_date : Datetime) (planet : String) (lat lon : ℚ) :
    ((is_planet_in_retrograde sp check_date planet lat lon).1 = true →
        ∃ a b, (is_planet_in_retrograde sp check_date planet lat lon).2.1 = some a ∧
          (is_planet_in_retrograde sp check_date planet lat lon).2.2 = some b ∧
          a ≤ check_date.date ∧ check_date.date ≤ b) ∧
      ((is_planet_in_retrograde sp check_date planet lat lon).1 = false →
        (is_planet_in_retrograde sp check_date planet lat lon).2.1 = none ∧
          (is_planet_in_retrograde sp check_date planet lat lon).2.2 = none) := by
  unfold is_planet_in_retrograde
  by_cases hl : planet = "sun" ∨ planet = "moon"
  · rw [if_pos hl]
    exact ⟨fun h => by simp at h, fun _ => ⟨rfl, rfl⟩⟩
  · rw [if_neg hl]
    by_cases hs : 0 ≤ sp.speed_longitude planet lat lon check_date.date
    · rw [if_pos hs]
      exact ⟨fun h => by simp at h, fun _ => ⟨rfl, rfl⟩⟩
    · rw [if_neg hs]
      rcases ha : searchStart (fun d => sp.speed_longitude planet lat lon d) check_date.date searchHorizon with _ | a
      · rcases hb : searchEnd (fun d => sp.speed_longitude planet lat lon d) check_date.date searchHorizon with _ | b
        · exact ⟨fun h => Bool.noConfusion h, fun _ => ⟨rfl, rfl⟩⟩
        · exact ⟨fun h => Bool.noConfusion h, fun _ => ⟨rfl, rfl⟩⟩
      · rcases hb : searchEnd (fun d => sp.speed_longitude planet lat lon d) check_date.date searchHorizon with _ | b
        · exact ⟨fun h => Bool.noConfusion h, fun _ => ⟨rfl, rfl⟩⟩
        · refine ⟨fun _ => ⟨a, b, rfl, rfl, ?_, ?_⟩, fun h => Bool.noConfusion h⟩
          · exact searchStart_le _ searchHorizon check_date.date a ha
          · exact le_searchEnd _ searchHorizon check_date.date b hb

/-- C6 witness: on the synthetic signal that is retrograde exactly on
days 5–10, querying Mercury on day 7 reports a window, and the returned
start and end bracket day 7. -/
theorem retrograde_window_witness :
    ∃ a b,
      (is_planet_in_retrograde syntheticRetroSpeed ⟨7, 0⟩ "mercury" 12.97 77.59).2.1 =
          some a ∧
        (is_planet_in_retrograde syntheticRetroSpeed ⟨7, 0⟩ "mercury" 12.97 77.59).2.2 =
          some b ∧
        a ≤ (7 : ℤ) ∧ (7 : ℤ) ≤ b :=
  (retrograde_window_brackets_query syntheticRetroSpeed ⟨7, 0⟩ "mercury"
    12.97 77.59).1 (by decide)

/-- C7: the two luminaries are excluded from retrograde classification by
policy — for every speed provider, queried instant and observer location,
the detector reports `is_retrograde = false` with no start and no end
instant for the Sun and for the Moon, regardless of the computed speed. -/
theorem luminaries_never_retrograde (sp : SpeedProvider) (check_date : Datetime)
    (lat lon : ℚ) :
    is_planet_in_retrograde sp check_date "sun" lat lon = (false, none, none) ∧
      is_planet_in_retrograde sp check_date "moon" lat lon = (false, none, none) := by
  constructor
  · unfold is_planet_in_retrograde
    rw [if_pos (Or.inl rfl)]
  · unfold is_planet_in_retrograde
    rw [if_pos (Or.inr rfl)]

/-- Helper: the shared ayanamsa evaluation is strictly increasing in the
calendar date, for every system. -/
theorem ayanamsa_for_strictMono_in_date (s : AyanamsaSystem) (t1 t2 : Datetime)
    (h : t1.date < t2.date) : ayanamsa_for s t1 < ayanamsa_for s t2 := by
  unfold ayanamsa_for calculate_b6 julianCenturies precessionRatePerCentury
  have hd : (t1.date : ℚ) < (t2.date : ℚ) := Int.cast_lt.2 h
  gcongr

/-- C8 counterexample: the claim fails for instants on the same calendar
date — the ayanamsa formulas are date-resolution, so the Lahiri value at
06:00 equals the value at 18:00 of the same (supported-range) day even
though the first instant is strictly earlier, refuting strict growth over
every pair of instants `t1 < t2`. -/
theorem ayanamsa_not_strictly_monotonic_within_a_day :
    ¬ (∀ (s : AyanamsaSystem) (t1 t2 : Datetime),
        inSupportedRange t1 → inSupportedRange t2 → t1.before t2 →
          ayanamsa_for s t1 < ayanamsa_for s t2) := by
  intro h
  have h1 : inSupportedRange ⟨0, 1/4⟩ := by
    constructor <;> norm_num
  have h2 : inSupportedRange ⟨0, 3/4⟩ := by
    constructor <;> norm_num
  have hb : Datetime.before ⟨0, 1/4⟩ ⟨0, 3/4⟩ := Or.inr ⟨rfl, by norm_num⟩
  have hlt := h .lahiri ⟨0, 1/4⟩ ⟨0, 3/4⟩ h1 h2 hb
  exact absurd hlt (lt_irrefl _)

/-- C8 amended: monotonic precession growth at the resolution the
formulas carry — for each of the sixteen named ayanamsa systems and every
pair of supported-range instants whose calendar dates are strictly
ordered, the ayanamsa value at the earlier date is strictly less than the
value at the later date (instants within one calendar day share a
value, since every formula is date-resolution). -/
theorem ayanamsa_strictly_increasing_across_dates (s : AyanamsaSystem)
    (t1 t2 : Datetime) (_h1 : inSupportedRange t1) (_h2 : inSupportedRange t2)
    (h : t1.date < t2.date) : ayanamsa_for s t1 < ayanamsa_for s t2 :=
  ayanamsa_for_strictMono_in_date s t1 t2 h

/-- C8 witness: the Lahiri system strictly grows from the J2000.0 epoch
date to one year later. -/
theorem ayanamsa_growth_witness :
    ayanamsa_for .lahiri ⟨0, 0⟩ < ayanamsa_for .lahiri ⟨366, 0⟩ :=
  ayanamsa_strictly_increasing_across_dates .lahiri ⟨0, 0⟩ ⟨366, 0⟩
    (by constructor <;> norm_num) (by constructor <;> norm_num) (by norm_num)
